import Mathlib

/-!
# ConstrainedPlanning demo: a trace model of `main`

`src/demos/ConstrainedPlanning.cpp` is a command-line harness: it reads its options
with `getopt`, selects one of three constrained state spaces, asks the library for a
problem and a planner, runs the planner and dumps files.  Its own logic is the option
switch, the space selection, the guards that end in `usage`, and the order and
arguments of the calls it makes.

The model below is a function from the values the library hands to `main` (the
successive results of `getopt`, the results of `atoi`, `atof`, `parseProblem`,
`parsePlanner`, `anchorChart`, `setProjectionEvaluator`, `solve`) to the sequence of
calls `main` performs, in program order.  Calls of the library are events of the
trace; what they return is read from an environment record.
-/

namespace ConstrainedPlanning

/-! ## Values -/

/-- A value of the C type `double`: a finite value (every finite double is a
rational number), an infinity or a NaN.  `main` performs no rounding arithmetic on
doubles: it stores results of `atof`, converts one `unsigned int` (exact below
`2 ^ 53`) and negates (exact).  The two zeros are not distinguished; IEEE comparison
does not distinguish them either. -/
inductive Double where
  | fin (q : Rat)
  | posInf
  | negInf
  | nan
deriving DecidableEq

namespace Double

/-- Unary minus on doubles. -/
def neg : Double → Double
  | fin q => fin (-q)
  | posInf => negInf
  | negInf => posInf
  | nan => nan

/-- Conversion of an `unsigned int` to `double`; exact, the value is below `2 ^ 32`. -/
def ofUnsigned (n : Nat) : Double := fin (n : Rat)

end Double

/-- Conversion of an `int` to `unsigned int` (32 bits): reduction modulo `2 ^ 32`. -/
def toUnsigned (i : Int) : Nat := (i % 4294967296).toNat

/-- The test `strcmp(a, b) == 0` on C strings: equality of the two strings. -/
def strcmpEq (a b : String) : Bool := decide (a = b)

/-- The dense vector type of the linear algebra library, as the list of its entries. -/
abbrev VectorXd := List Double

/-- The enumeration `SPACE` of the source. -/
inductive SPACE where
  | ATLAS
  | PROJECTED
  | NULLSPACE
deriving DecidableEq

/-- The library type `PlannerStatus`, declared outside this file, by the names of its
values. `main` names `APPROXIMATE_SOLUTION`; the conversion of a status to `bool` that
`if (stat)` applies is part of the environment. -/
inductive PlannerStatus where
  | UNKNOWN
  | INVALID_START
  | INVALID_GOAL
  | UNRECOGNIZED_GOAL_TYPE
  | TIMEOUT
  | APPROXIMATE_SOLUTION
  | EXACT_SOLUTION
  | CRASH
  | ABORT
deriving DecidableEq

/-- What `main` reads of the constraint object returned by `parseProblem`. -/
structure Constraint where
  ambientDimension : Nat
  coDimension : Nat
  manifoldDimension : Nat
deriving DecidableEq

/-- A successful result of `parseProblem`: the constraint (a non-null pointer) and
the start and goal points written to the out-parameters `x` and `y`. -/
structure Problem where
  constraint : Constraint
  x : VectorXd
  y : VectorXd
deriving DecidableEq

/-- A chart pointer as returned by `anchorChart`. -/
abbrev AtlasChartPtr := Nat

/-- The real state stored by `setRealState`: the ambient point and, for an atlas
state, the chart it is tied to. -/
structure RealState where
  point : VectorXd
  chart : Option AtlasChartPtr
deriving DecidableEq

/-- Modelled from the spec: the class `RealVectorBounds` is declared outside this
file; the spec calls its values the ambient-space bounds, a box: one lower and one
upper bound for each ambient dimension. -/
structure RealVectorBounds where
  low : List Double
  high : List Double
deriving DecidableEq

namespace RealVectorBounds

/-- Modelled from the spec: the constructor `RealVectorBounds(dim)` is declared
outside this file; it makes a box of `dim` dimensions, here with every bound zero. -/
def ofDim (dim : Nat) : RealVectorBounds :=
  ⟨List.replicate dim (Double.fin 0), List.replicate dim (Double.fin 0)⟩

/-- Modelled from the spec: the method `setLow(value)` is declared outside this file;
every lower bound of the box becomes `value`. -/
def setLow (b : RealVectorBounds) (value : Double) : RealVectorBounds :=
  ⟨b.low.map (fun _ => value), b.high⟩

/-- Modelled from the spec: the method `setHigh(value)` is declared outside this file;
every upper bound of the box becomes `value`. -/
def setHigh (b : RealVectorBounds) (value : Double) : RealVectorBounds :=
  ⟨b.low, b.high.map (fun _ => value)⟩

end RealVectorBounds

/-! ## Options -/

/-- One result of `getopt`: the character it returns and the value of `optarg`. -/
structure GetoptResult where
  c : Char
  optarg : String
deriving DecidableEq

/-- The option string handed to `getopt`. -/
def optstring : String := "c:p:s:w:ot:n:i:a"

/-- How an option string declares a character: `none` when it is not an option,
`some true` when it is an option followed by a colon (it takes an argument),
`some false` when it is an option without argument. -/
def declaredIn : List Char → Char → Option Bool
  | [], _ => none
  | o :: rest, c =>
    if o = c ∧ c ≠ ':' then
      match rest with
      | ':' :: _ => some true
      | _ => some false
    else declaredIn rest c

/-- The option letters and argument names printed by `usage`, in its order; `none`
is an option without argument. -/
def usageFlags : List (Char × Option String) :=
  [('c', some "problem"), ('p', some "planner"), ('s', some "space"),
   ('t', some "timelimit"), ('w', some "sleep"), ('o', none)]

/-- The text of one option in the usage line. -/
def renderFlag : Char × Option String → String
  | (c, some a) => " -" ++ String.singleton c ++ " <" ++ a ++ ">"
  | (c, none) => " -" ++ String.singleton c

/-- The local variables of `main` that the option loop assigns. -/
structure Config where
  plannerName : String
  problem : String
  space : String
  artificalSleep : Double
  planningTime : Double
  output : Bool
  tb : Bool
  iter : Int
  links : Nat
deriving DecidableEq

/-- The initial values of the locals, as declared at the top of `main`. -/
def Config.initial : Config where
  plannerName := "RRTConnect"
  problem := "sphere"
  space := "projected"
  artificalSleep := Double.fin 0
  planningTime := Double.fin 5
  output := false
  tb := true
  iter := 0
  links := 5

/-- The C library functions the option loop calls on `optarg`. -/
structure Libc where
  atoi : String → Int
  atof : String → Double

/-- The body of the option loop for one result of `getopt`: the `switch` on `c`.
`none` is the `default` case, which calls `usage` and so ends the run. -/
def optionCase (libc : Libc) (cfg : Config) (r : GetoptResult) : Option Config :=
  if r.c = 'c' then some { cfg with problem := r.optarg }
  else if r.c = 'a' then some { cfg with tb := false }
  else if r.c = 'i' then some { cfg with iter := libc.atoi r.optarg }
  else if r.c = 'p' then some { cfg with plannerName := r.optarg }
  else if r.c = 's' then some { cfg with space := r.optarg }
  else if r.c = 'w' then some { cfg with artificalSleep := libc.atof r.optarg }
  else if r.c = 't' then some { cfg with planningTime := libc.atof r.optarg }
  else if r.c = 'n' then some { cfg with links := toUnsigned (libc.atoi r.optarg) }
  else if r.c = 'o' then some { cfg with output := true }
  else none

/-- The option loop `while ((c = getopt(...)) != -1)` over the successive results of
`getopt`, started from the locals `cfg`. -/
def optionLoop (libc : Libc) : Config → List GetoptResult → Option Config
  | cfg, [] => some cfg
  | cfg, r :: rest =>
    match optionCase libc cfg r with
    | none => none
    | some cfg1 => optionLoop libc cfg1 rest

/-- The selection of `spaceType` from the string `space`; `none` is the final
`else`, which prints a message and calls `usage`. -/
def selectSpace (space : String) : Option SPACE :=
  if strcmpEq "atlas" space then some SPACE.ATLAS
  else if strcmpEq "projected" space then some SPACE.PROJECTED
  else if strcmpEq "null" space then some SPACE.NULLSPACE
  else none

/-! ## Calls and traces -/

/-- The two valid-state-sampler allocators the source passes to the library. -/
inductive Allocator where
  | avssa
  | pvssa
deriving DecidableEq

/-- The argument of `planner->solve`: an `IterationTerminationCondition` built from
`iter`, or a time limit in seconds. -/
inductive Termination where
  | iterations (iter : Int)
  | seconds (planningTime : Double)
deriving DecidableEq

/-- Which of the two scoped states a call addresses. -/
inductive Endpoint where
  | start
  | goal
deriving DecidableEq

/-- The calls `main` and `usage` perform, each with the arguments the source passes.
`cout` is a fixed message written to standard output; the statements that print
computed values are events of their own. Getters (`getSpaceInformation`,
`getAmbientSpace`, the dimensions of the constraint) and the construction of local
objects are not recorded. `setRho`, `setAlpha` and `setEpsilon` are called with the
literals of the source (0.5, pi / 8, 0.2). -/
inductive Event where
  | cout (text : String)
  | printProblems
  | printPlanners
  | exit (code : Int)
  | parseProblem (problem : String) (artificalSleep : Double) (links : Nat)
  | printfBanner (space plannerName problem : String) (ambient co : Nat)
      (planningTime artificalSleep : Double)
  | newStateSpace (kind : SPACE)
  | setRho
  | setAlpha
  | setEpsilon
  | setSeparate (tb : Bool)
  | newSimpleSetup
  | setValidStateSamplerAllocator (a : Allocator)
  | setSpaceInformation
  | anchorChart (p : VectorXd)
  | setRealState (which : Endpoint) (s : RealState)
  | setStartAndGoalStates (start goal : RealState)
  | setStateValidityChecker
  | parsePlanner (plannerName : String) (range : Double)
  | setPlanner
  | registerProjection (name : String)
  | setProjectionEvaluator (plannerClass : String) (name : String)
  | caught
  | setBounds (b : RealVectorBounds)
  | setup
  | clock
  | solve (t : Termination)
  | coutIterations (iter : Int)
  | coutTook
  | getSolutionPath
  | pathLength
  | simplifySolution
  | coutPathLength
  | interpolate (n : Nat)
  | ofstream (file : String)
  | close (file : String)
  | pathPrintAsMatrix
  | pathPrintPLY
  | getPlannerData
  | dataPrintPLY
  | atlasPrintPLY
  | getChartCount
  | estimateFrontierPercent
  | ret (code : Int)
deriving DecidableEq

/-- What the library returns to `main` in one run. `parseProblem` receives the
problem name, the artificial sleep and `links`; `none` is the null constraint.
`parsePlanner` receives the planner name, the state space just built (its kind and
constraint) and the range, and tells whether the returned planner pointer is
non-null. `anchorChart` receives the points anchored earlier on the same atlas, then
the point. `setProjectionEvaluatorThrows` tells whether the call raises an exception
that the handler `catch (std::exception &)` catches. `solve` is the status the
planner returns, `statusBool` the conversion of a status to `bool`. Other calls are
taken to return normally. -/
structure Env where
  libc : Libc
  parseProblem : String → Double → Nat → Option Problem
  parsePlanner : String → SPACE → Constraint → Double → Bool
  anchorChart : List VectorXd → VectorXd → AtlasChartPtr
  setProjectionEvaluatorThrows : String → String → Bool
  solve : Termination → PlannerStatus
  statusBool : PlannerStatus → Bool

/-- The function `usage`: the usage line, the two listings, then `exit(0)`. -/
def usage (progname : String) : List Event :=
  [Event.cout ("Usage: " ++ progname ++
      " -c <problem> -p <planner> -s <space> -t <timelimit> -w <sleep> -o\n"),
   Event.printProblems, Event.printPlanners, Event.exit 0]

/-- The `switch (spaceType)` of `main`: construction of the state space and of the
start and goal states. -/
def buildSpace (env : Env) (cfg : Config) (pr : Problem) : SPACE → List Event
  | SPACE.ATLAS =>
    let startChart := env.anchorChart [] pr.x
    let goalChart := env.anchorChart [pr.x] pr.y
    [Event.newStateSpace SPACE.ATLAS, Event.setRho, Event.setAlpha, Event.setEpsilon,
     Event.setSeparate cfg.tb, Event.newSimpleSetup,
     Event.setValidStateSamplerAllocator Allocator.avssa, Event.setSpaceInformation,
     Event.anchorChart pr.x, Event.anchorChart pr.y,
     Event.setRealState Endpoint.start ⟨pr.x, some startChart⟩,
     Event.setRealState Endpoint.goal ⟨pr.y, some goalChart⟩,
     Event.setStartAndGoalStates ⟨pr.x, some startChart⟩ ⟨pr.y, some goalChart⟩]
  | SPACE.PROJECTED =>
    [Event.newStateSpace SPACE.PROJECTED, Event.newSimpleSetup,
     Event.setValidStateSamplerAllocator Allocator.pvssa, Event.setSpaceInformation,
     Event.setRealState Endpoint.start ⟨pr.x, none⟩,
     Event.setRealState Endpoint.goal ⟨pr.y, none⟩,
     Event.setStartAndGoalStates ⟨pr.x, none⟩ ⟨pr.y, none⟩]
  | SPACE.NULLSPACE =>
    [Event.newStateSpace SPACE.NULLSPACE, Event.newSimpleSetup,
     Event.setValidStateSamplerAllocator Allocator.pvssa, Event.setSpaceInformation,
     Event.setRealState Endpoint.start ⟨pr.x, none⟩,
     Event.setRealState Endpoint.goal ⟨pr.y, none⟩,
     Event.setStartAndGoalStates ⟨pr.x, none⟩ ⟨pr.y, none⟩]

/-- The local `bound`: 20, or `links` when the problem is named "chain". -/
def bound (cfg : Config) : Double :=
  if strcmpEq cfg.problem "chain" then Double.ofUnsigned cfg.links else Double.fin 20

/-- The `try` block of `main` with its empty handler: the chain of comparisons of
`plannerName`, each branch one call of `setProjectionEvaluator(problem)` on the
planner cast to the class named; `caught` records that the call raised and the
handler was entered. -/
def tryProjection (env : Env) (cfg : Config) : List Event :=
  let call (cls : String) : List Event :=
    Event.setProjectionEvaluator cls cfg.problem ::
      (if env.setProjectionEvaluatorThrows cls cfg.problem then [Event.caught] else [])
  if strcmpEq cfg.plannerName "KPIECE1" then call "KPIECE1"
  else if strcmpEq cfg.plannerName "BKPIECE1" then call "BKPIECE1"
  else if strcmpEq cfg.plannerName "LBKPIECE1" then call "LBKPIECE1"
  else if strcmpEq cfg.plannerName "ProjEST" then call "ProjEST"
  else if strcmpEq cfg.plannerName "PDST" then call "PDST"
  else if strcmpEq cfg.plannerName "SBL" then call "SBL"
  else if strcmpEq cfg.plannerName "STRIDE" then call "STRIDE"
  else []

/-- The bounds object handed to `setBounds`: built for `css->getAmbientDimension()`
dimensions, the dimension of the ambient space of the constraint from which the state
space was constructed, then `setLow(-bound)` and `setHigh(bound)`. -/
def boundsOf (cfg : Config) (pr : Problem) : RealVectorBounds :=
  ((RealVectorBounds.ofDim pr.constraint.ambientDimension).setLow (bound cfg).neg).setHigh
    (bound cfg)

/-- The termination argument of the one `solve` call: `if (iter)`. -/
def termination (cfg : Config) : Termination :=
  if cfg.iter ≠ 0 then Termination.iterations cfg.iter
  else Termination.seconds cfg.planningTime

/-- The statement `if (iter) ... else ...` that calls `solve`. -/
def solveEvents (cfg : Config) : List Event :=
  if cfg.iter ≠ 0 then
    [Event.solve (Termination.iterations cfg.iter), Event.coutIterations cfg.iter]
  else [Event.solve (Termination.seconds cfg.planningTime)]

/-- The block `if (output)` inside the solution branch. -/
def dumpEvents (cfg : Config) (spaceType : SPACE) (pr : Problem) : List Event :=
  if cfg.output then
    [Event.cout "Interpolating path...", Event.interpolate 100,
     Event.cout "Dumping animation file...", Event.ofstream "anim.txt",
     Event.pathPrintAsMatrix, Event.close "anim.txt"] ++
    (if pr.x.length = 3 then
      [Event.cout "Dumping path mesh...", Event.ofstream "path.ply", Event.pathPrintPLY,
       Event.close "path.ply", Event.cout "Dumping graph mesh...", Event.getPlannerData,
       Event.ofstream "graph.ply", Event.dataPrintPLY, Event.close "graph.ply"]
     else []) ++
    (if pr.constraint.manifoldDimension = 2 ∧ spaceType = SPACE.ATLAS then
      [Event.cout "Dumping atlas mesh...", Event.ofstream "atlas.ply", Event.atlasPrintPLY,
       Event.close "atlas.ply"]
     else [])
  else []

/-- The statement `if (stat) ... else ...` after `solve`. -/
def reportEvents (env : Env) (cfg : Config) (spaceType : SPACE) (pr : Problem)
    (stat : PlannerStatus) : List Event :=
  if env.statusBool stat then
    [Event.clock, Event.coutTook, Event.getSolutionPath, Event.pathLength,
     Event.simplifySolution, Event.pathLength, Event.coutPathLength] ++
    dumpEvents cfg spaceType pr ++
    (if stat = PlannerStatus.APPROXIMATE_SOLUTION then
      [Event.cout "Solution is approximate."] else [])
  else [Event.cout "No solution found."]

/-- The final `if (spaceType == ATLAS)`: the two diagnostics of the atlas. -/
def diagnosticEvents (spaceType : SPACE) : List Event :=
  if spaceType = SPACE.ATLAS then [Event.getChartCount, Event.estimateFrontierPercent]
  else []

/-- The part of `main` from `ss->setPlanner(planner)` to `return 0`. -/
def planEvents (env : Env) (cfg : Config) (spaceType : SPACE) (pr : Problem) :
    List Event :=
  [Event.setPlanner, Event.registerProjection "sphere", Event.registerProjection "chain"] ++
  tryProjection env cfg ++
  [Event.setBounds (boundsOf cfg pr), Event.setup, Event.clock] ++
  solveEvents cfg ++
  reportEvents env cfg spaceType pr (env.solve (termination cfg)) ++
  diagnosticEvents spaceType ++
  [Event.ret 0]

/-- The part of `main` after the option loop, on the locals `cfg`. -/
def afterOptions (env : Env) (progname : String) (cfg : Config) : List Event :=
  match selectSpace cfg.space with
  | none => Event.cout "Invalid constrained state space." :: usage progname
  | some spaceType =>
    Event.parseProblem cfg.problem cfg.artificalSleep cfg.links ::
    match env.parseProblem cfg.problem cfg.artificalSleep cfg.links with
    | none => Event.cout "Invalid problem." :: usage progname
    | some pr =>
      [Event.printfBanner cfg.space cfg.plannerName cfg.problem
        pr.constraint.ambientDimension pr.constraint.coDimension cfg.planningTime
        cfg.artificalSleep] ++
      buildSpace env cfg pr spaceType ++
      [Event.setStateValidityChecker, Event.parsePlanner cfg.plannerName (Double.fin 1)] ++
      if env.parsePlanner cfg.plannerName spaceType pr.constraint (Double.fin 1) then
        planEvents env cfg spaceType pr
      else Event.cout "Invalid planner." :: usage progname

/-- The function `main`: the calls it performs, in order, on the successive results
`opts` of `getopt`, with `progname` the value of `argv[0]`. The trace ends with
`exit 0` (from `usage`) or with `ret 0`. -/
def main (env : Env) (progname : String) (opts : List GetoptResult) : List Event :=
  match optionLoop env.libc Config.initial opts with
  | none => usage progname
  | some cfg => afterOptions env progname cfg

/-! ## Reading a trace -/

/-- The argument of the last result of `getopt` that carries the option `c`. -/
def lastArg (c : Char) : List GetoptResult → Option String
  | [] => none
  | r :: rest =>
    match lastArg c rest with
    | some a => some a
    | none => if r.c = c then some r.optarg else none

/-- Whether some result of `getopt` carries the option `c`. -/
def given (c : Char) (opts : List GetoptResult) : Bool :=
  opts.any (fun r => decide (r.c = c))

/-- The state spaces constructed in a trace, in order. -/
def constructedSpaces (t : List Event) : List SPACE :=
  t.filterMap (fun e => match e with
    | Event.newStateSpace k => some k
    | _ => none)

/-- The termination arguments of the calls of `solve` in a trace, in order. -/
def solveCalls (t : List Event) : List Termination :=
  t.filterMap (fun e => match e with
    | Event.solve a => some a
    | _ => none)

/-- Calls that seed the atlas or fix the start and goal states. -/
def Event.isEndpointCall : Event → Bool
  | Event.anchorChart _ => true
  | Event.setRealState _ _ => true
  | Event.setStartAndGoalStates _ _ => true
  | _ => false

/-- Calls of `solve` and of the two atlas diagnostics. -/
def Event.isSolveOrDiagnostic : Event → Bool
  | Event.solve _ => true
  | Event.getChartCount => true
  | Event.estimateFrontierPercent => true
  | _ => false

/-- Calls that register or select a projection, raise into the handler, set the
bounds, set up, or solve. -/
def Event.isProjectionOrPlanning : Event → Bool
  | Event.registerProjection _ => true
  | Event.setProjectionEvaluator _ _ => true
  | Event.caught => true
  | Event.setBounds _ => true
  | Event.setup => true
  | Event.solve _ => true
  | _ => false

/-- The planner names for which the source selects a projection evaluator. -/
def projectionPlanners : List String :=
  ["KPIECE1", "BKPIECE1", "LBKPIECE1", "ProjEST", "PDST", "SBL", "STRIDE"]

/-- The case labels of the `switch` in the option loop. -/
def caseLabels : List Char := ['c', 'a', 'i', 'p', 's', 'w', 't', 'n', 'o']

/-- The run passes every guard of `main` and reaches planning: the option loop ends
with the locals `cfg`, the space name selects `spaceType`, `parseProblem` returns the
problem `pr` and `parsePlanner` returns a planner. -/
def ReachesPlanning (env : Env) (opts : List GetoptResult) (cfg : Config)
    (spaceType : SPACE) (pr : Problem) : Prop :=
  optionLoop env.libc Config.initial opts = some cfg ∧
  selectSpace cfg.space = some spaceType ∧
  env.parseProblem cfg.problem cfg.artificalSleep cfg.links = some pr ∧
  env.parsePlanner cfg.plannerName spaceType pr.constraint (Double.fin 1) = true

instance (env : Env) (opts : List GetoptResult) (cfg : Config) (spaceType : SPACE)
    (pr : Problem) : Decidable (ReachesPlanning env opts cfg spaceType pr) := by
  unfold ReachesPlanning
  infer_instance

/-! ## Sample environments -/

/-- A C library that reads the decimal strings used in the examples. -/
def sampleLibc : Libc where
  atoi := fun s => if s = "7" then 7 else if s = "-3" then -3 else 0
  atof := fun s => if s = "2.5" then Double.fin (5 / 2) else Double.fin 0

/-- The sphere problem: ambient dimension 3, one constraint, from the south pole to
the north pole. -/
def sphereProblem : Problem where
  constraint := ⟨3, 1, 2⟩
  x := [Double.fin 0, Double.fin 0, Double.fin (-1)]
  y := [Double.fin 0, Double.fin 0, Double.fin 1]

/-- A library that knows the problem "sphere" and the planners "RRTConnect" and
"KPIECE1", numbers the charts of an atlas in creation order, and whose planner finds
an exact solution. -/
def sampleEnv : Env where
  libc := sampleLibc
  parseProblem := fun p _ _ => if p = "sphere" then some sphereProblem else none
  parsePlanner := fun n _ _ _ => decide (n = "RRTConnect") || decide (n = "KPIECE1")
  anchorChart := fun earlier _ => earlier.length
  setProjectionEvaluatorThrows := fun _ _ => false
  solve := fun _ => PlannerStatus.EXACT_SOLUTION
  statusBool := fun s =>
    decide (s = PlannerStatus.EXACT_SOLUTION) ||
      decide (s = PlannerStatus.APPROXIMATE_SOLUTION)

/-- The sample library with a `setProjectionEvaluator` that always raises. -/
def throwingEnv : Env :=
  { sampleEnv with setProjectionEvaluatorThrows := fun _ _ => true }

/-- The sample library with a planner that times out. -/
def timeoutEnv : Env :=
  { sampleEnv with solve := fun _ => PlannerStatus.TIMEOUT }

/-- A run on the atlas space with seven iterations and file output. -/
def atlasOpts : List GetoptResult := [⟨'s', "atlas"⟩, ⟨'i', "7"⟩, ⟨'o', ""⟩]

/-- The locals after the option loop on `atlasOpts`. -/
def atlasCfg : Config :=
  { Config.initial with space := "atlas", iter := 7, output := true }

/-- A run with the planner KPIECE1 on the default space and problem. -/
def kpieceOpts : List GetoptResult := [⟨'p', "KPIECE1"⟩]

/-- The locals after the option loop on `kpieceOpts`. -/
def kpieceCfg : Config :=
  { Config.initial with plannerName := "KPIECE1" }

/-- A run that names the atlas space and a problem the library does not know. -/
def unknownProblemOpts : List GetoptResult := [⟨'s', "atlas"⟩, ⟨'c', "torus9"⟩]

/-- A run that names the atlas space and a planner the library does not know. -/
def unknownPlannerOpts : List GetoptResult := [⟨'s', "atlas"⟩, ⟨'p', "Dijkstra"⟩]

/-! ## The option loop -/

/-- One pass of the switch, field by field. -/
theorem optionCase_fields (libc : Libc) (cfg cfg1 : Config) (r : GetoptResult)
    (h : optionCase libc cfg r = some cfg1) :
    cfg1.problem = (if r.c = 'c' then r.optarg else cfg.problem) ∧
    cfg1.plannerName = (if r.c = 'p' then r.optarg else cfg.plannerName) ∧
    cfg1.space = (if r.c = 's' then r.optarg else cfg.space) ∧
    cfg1.planningTime = (if r.c = 't' then libc.atof r.optarg else cfg.planningTime) ∧
    cfg1.artificalSleep = (if r.c = 'w' then libc.atof r.optarg else cfg.artificalSleep) ∧
    cfg1.iter = (if r.c = 'i' then libc.atoi r.optarg else cfg.iter) ∧
    cfg1.links = (if r.c = 'n' then toUnsigned (libc.atoi r.optarg) else cfg.links) ∧
    cfg1.output = (cfg.output || decide (r.c = 'o')) ∧
    cfg1.tb = (cfg.tb && !decide (r.c = 'a')) := by
  unfold optionCase at h
  split_ifs at h with h1 h2 h3 h4 h5 h6 h7 h8 h9 <;>
    simp only [Option.some.injEq] at h <;> subst h <;> simp_all

/-- The switch takes its `default` case exactly on the characters that are not one of
its labels. -/
theorem optionCase_eq_none_iff (libc : Libc) (cfg : Config) (r : GetoptResult) :
    optionCase libc cfg r = none ↔ r.c ∉ caseLabels := by
  unfold optionCase caseLabels
  split_ifs <;> simp_all

/-- The loop ends in `usage` exactly when some result is not a label of the switch. -/
theorem optionLoop_eq_none_iff (libc : Libc) (opts : List GetoptResult) :
    ∀ cfg : Config, optionLoop libc cfg opts = none ↔ ∃ r ∈ opts, r.c ∉ caseLabels := by
  induction opts with
  | nil => intro cfg; simp [optionLoop]
  | cons r rest ih =>
    intro cfg
    simp only [optionLoop]
    cases hc : optionCase libc cfg r with
    | none =>
      have hr := (optionCase_eq_none_iff libc cfg r).1 hc
      simp only [List.mem_cons, exists_eq_or_imp, true_iff]
      exact Or.inl hr
    | some cfg2 =>
      have hr : ¬ r.c ∉ caseLabels := fun hn => by
        rw [(optionCase_eq_none_iff libc cfg r).2 hn] at hc
        cases hc
      simp only [List.mem_cons, exists_eq_or_imp, ih cfg2, hr, false_or]

/-- The locals after the loop, field by field, from the locals before it. -/
theorem optionLoop_fields (libc : Libc) (opts : List GetoptResult) :
    ∀ cfg cfg1 : Config, optionLoop libc cfg opts = some cfg1 →
    cfg1.problem = (lastArg 'c' opts).getD cfg.problem ∧
    cfg1.plannerName = (lastArg 'p' opts).getD cfg.plannerName ∧
    cfg1.space = (lastArg 's' opts).getD cfg.space ∧
    cfg1.planningTime = ((lastArg 't' opts).map libc.atof).getD cfg.planningTime ∧
    cfg1.artificalSleep = ((lastArg 'w' opts).map libc.atof).getD cfg.artificalSleep ∧
    cfg1.iter = ((lastArg 'i' opts).map libc.atoi).getD cfg.iter ∧
    cfg1.links =
      ((lastArg 'n' opts).map (fun a => toUnsigned (libc.atoi a))).getD cfg.links ∧
    cfg1.output = (cfg.output || given 'o' opts) ∧
    cfg1.tb = (cfg.tb && !given 'a' opts) := by
  induction opts with
  | nil =>
    intro cfg cfg1 h
    simp only [optionLoop, Option.some.injEq] at h
    subst h
    simp [lastArg, given]
  | cons r rest ih =>
    intro cfg cfg1 h
    simp only [optionLoop] at h
    cases hc : optionCase libc cfg r with
    | none => simp [hc] at h
    | some cfg2 =>
      simp only [hc] at h
      obtain ⟨i1, i2, i3, i4, i5, i6, i7, i8, i9⟩ := ih cfg2 cfg1 h
      obtain ⟨s1, s2, s3, s4, s5, s6, s7, s8, s9⟩ := optionCase_fields libc cfg cfg2 r hc
      rw [i1, i2, i3, i4, i5, i6, i7, i8, i9, s1, s2, s3, s4, s5, s6, s7, s8, s9]
      refine ⟨?_, ?_, ?_, ?_, ?_, ?_, ?_, ?_, ?_⟩
      · cases hl : lastArg 'c' rest <;> simp [lastArg, hl]
        split_ifs <;> simp
      · cases hl : lastArg 'p' rest <;> simp [lastArg, hl]
        split_ifs <;> simp
      · cases hl : lastArg 's' rest <;> simp [lastArg, hl]
        split_ifs <;> simp
      · cases hl : lastArg 't' rest <;> simp [lastArg, hl]
        split_ifs <;> simp
      · cases hl : lastArg 'w' rest <;> simp [lastArg, hl]
        split_ifs <;> simp
      · cases hl : lastArg 'i' rest <;> simp [lastArg, hl]
        split_ifs <;> simp
      · cases hl : lastArg 'n' rest <;> simp [lastArg, hl]
        split_ifs <;> simp
      · simp [given, Bool.or_assoc]
      · simp [given, Bool.and_assoc]

/-- The locals after the loop started from the initial values. -/
theorem optionLoop_initial (libc : Libc) (opts : List GetoptResult) (cfg : Config)
    (h : optionLoop libc Config.initial opts = some cfg) :
    cfg.problem = (lastArg 'c' opts).getD "sphere" ∧
    cfg.plannerName = (lastArg 'p' opts).getD "RRTConnect" ∧
    cfg.space = (lastArg 's' opts).getD "projected" ∧
    cfg.planningTime = ((lastArg 't' opts).map libc.atof).getD (Double.fin 5) ∧
    cfg.artificalSleep = ((lastArg 'w' opts).map libc.atof).getD (Double.fin 0) ∧
    cfg.iter = ((lastArg 'i' opts).map libc.atoi).getD 0 ∧
    cfg.links = ((lastArg 'n' opts).map (fun a => toUnsigned (libc.atoi a))).getD 5 ∧
    cfg.output = given 'o' opts ∧
    cfg.tb = !given 'a' opts := by
  simpa [Config.initial] using optionLoop_fields libc opts Config.initial cfg h

/-- The option string declares exactly the labels of the switch. -/
theorem declaredIn_optstring (c : Char) :
    (declaredIn optstring.toList c).isSome = true ↔ c ∈ caseLabels := by
  have hs : optstring.toList =
      ['c', ':', 'p', ':', 's', ':', 'w', ':', 'o', 't', ':', 'n', ':', 'i', ':', 'a'] := by
    decide
  by_cases hc : c ∈ caseLabels
  · simp only [caseLabels, List.mem_cons, List.mem_singleton, List.not_mem_nil,
      or_false] at hc
    rcases hc with rfl | rfl | rfl | rfl | rfl | rfl | rfl | rfl | rfl <;> decide
  · simp only [hc, iff_false]
    simp only [caseLabels, List.mem_cons, List.mem_singleton, List.not_mem_nil, or_false,
      not_or] at hc
    obtain ⟨n1, n2, n3, n4, n5, n6, n7, n8, n9⟩ := hc
    by_cases hcolon : c = ':'
    · subst hcolon; decide
    · simp [hs, declaredIn, Ne.symm n1, Ne.symm n2, Ne.symm n3, Ne.symm n4, Ne.symm n5,
        Ne.symm n6, Ne.symm n7, Ne.symm n8, Ne.symm n9, Ne.symm hcolon]

/-! ## The space selection -/

/-- The comparison chain of the space selection, read as equalities of strings. -/
theorem selectSpace_spec (s : String) :
    (selectSpace s = some SPACE.ATLAS ↔ s = "atlas") ∧
    (selectSpace s = some SPACE.PROJECTED ↔ s = "projected") ∧
    (selectSpace s = some SPACE.NULLSPACE ↔ s = "null") ∧
    (selectSpace s = none ↔ s ≠ "atlas" ∧ s ≠ "projected" ∧ s ≠ "null") := by
  have h1 : ("atlas" : String) ≠ "projected" := by decide
  have h2 : ("atlas" : String) ≠ "null" := by decide
  have h3 : ("projected" : String) ≠ "null" := by decide
  unfold selectSpace strcmpEq
  by_cases a1 : "atlas" = s
  · subst a1; simp [h1, h2]
  · by_cases a2 : "projected" = s
    · subst a2; simp [h1.symm, h3]
    · by_cases a3 : "null" = s
      · subst a3; simp [h2.symm, h3.symm]
      · simp [a1, a2, a3, Ne.symm a1, Ne.symm a2, Ne.symm a3]

/-! ## The shape of a run -/

/-- The trace of a run that passes every guard. -/
theorem main_reaches (env : Env) (progname : String) (opts : List GetoptResult)
    (cfg : Config) (k : SPACE) (pr : Problem) (h : ReachesPlanning env opts cfg k pr) :
    main env progname opts =
      [Event.parseProblem cfg.problem cfg.artificalSleep cfg.links,
       Event.printfBanner cfg.space cfg.plannerName cfg.problem
        pr.constraint.ambientDimension pr.constraint.coDimension cfg.planningTime
        cfg.artificalSleep] ++
      buildSpace env cfg pr k ++
      [Event.setStateValidityChecker, Event.parsePlanner cfg.plannerName (Double.fin 1)] ++
      planEvents env cfg k pr := by
  obtain ⟨h1, h2, h3, h4⟩ := h
  simp [main, afterOptions, h1, h2, h3, h4]

/-- The trace of a run stopped by the planner guard. -/
theorem main_invalid_planner (env : Env) (progname : String) (opts : List GetoptResult)
    (cfg : Config) (k : SPACE) (pr : Problem)
    (h1 : optionLoop env.libc Config.initial opts = some cfg)
    (h2 : selectSpace cfg.space = some k)
    (h3 : env.parseProblem cfg.problem cfg.artificalSleep cfg.links = some pr)
    (h4 : env.parsePlanner cfg.plannerName k pr.constraint (Double.fin 1) = false) :
    main env progname opts =
      [Event.parseProblem cfg.problem cfg.artificalSleep cfg.links,
       Event.printfBanner cfg.space cfg.plannerName cfg.problem
        pr.constraint.ambientDimension pr.constraint.coDimension cfg.planningTime
        cfg.artificalSleep] ++
      buildSpace env cfg pr k ++
      [Event.setStateValidityChecker, Event.parsePlanner cfg.plannerName (Double.fin 1),
       Event.cout "Invalid planner."] ++
      usage progname := by
  simp [main, afterOptions, h1, h2, h3, h4]

/-- The trace of a run stopped by the problem guard. -/
theorem main_invalid_problem (env : Env) (progname : String) (opts : List GetoptResult)
    (cfg : Config) (k : SPACE)
    (h1 : optionLoop env.libc Config.initial opts = some cfg)
    (h2 : selectSpace cfg.space = some k)
    (h3 : env.parseProblem cfg.problem cfg.artificalSleep cfg.links = none) :
    main env progname opts =
      [Event.parseProblem cfg.problem cfg.artificalSleep cfg.links,
       Event.cout "Invalid problem."] ++ usage progname := by
  simp [main, afterOptions, h1, h2, h3]

/-- The trace of a run stopped by the space guard. -/
theorem main_invalid_space (env : Env) (progname : String) (opts : List GetoptResult)
    (cfg : Config)
    (h1 : optionLoop env.libc Config.initial opts = some cfg)
    (h2 : selectSpace cfg.space = none) :
    main env progname opts = Event.cout "Invalid constrained state space." :: usage progname := by
  simp [main, afterOptions, h1, h2]

/-- The trace of a run stopped inside the option loop. -/
theorem main_invalid_option (env : Env) (progname : String) (opts : List GetoptResult)
    (h1 : optionLoop env.libc Config.initial opts = none) :
    main env progname opts = usage progname := by
  simp [main, h1]

/-- Every run either passes every guard or is one of the four runs that end in
`usage`. -/
theorem main_cases (env : Env) (progname : String) (opts : List GetoptResult) :
    (∃ cfg k pr, ReachesPlanning env opts cfg k pr) ∨
    ((¬ ∃ cfg k pr, ReachesPlanning env opts cfg k pr) ∧
      (main env progname opts = usage progname ∨
       main env progname opts =
         Event.cout "Invalid constrained state space." :: usage progname ∨
       (∃ cfg : Config, main env progname opts =
         [Event.parseProblem cfg.problem cfg.artificalSleep cfg.links,
          Event.cout "Invalid problem."] ++ usage progname) ∨
       (∃ (cfg : Config) (k : SPACE) (pr : Problem), main env progname opts =
         [Event.parseProblem cfg.problem cfg.artificalSleep cfg.links,
          Event.printfBanner cfg.space cfg.plannerName cfg.problem
            pr.constraint.ambientDimension pr.constraint.coDimension cfg.planningTime
            cfg.artificalSleep] ++
         buildSpace env cfg pr k ++
         [Event.setStateValidityChecker, Event.parsePlanner cfg.plannerName (Double.fin 1),
          Event.cout "Invalid planner."] ++
         usage progname))) := by
  cases h1 : optionLoop env.libc Config.initial opts with
  | none =>
    refine Or.inr ⟨?_, Or.inl (main_invalid_option env progname opts h1)⟩
    rintro ⟨cfg, k, pr, hr, -⟩
    rw [h1] at hr
    cases hr
  | some cfg =>
    cases h2 : selectSpace cfg.space with
    | none =>
      refine Or.inr ⟨?_, Or.inr (Or.inl (main_invalid_space env progname opts cfg h1 h2))⟩
      rintro ⟨cfg1, k, pr, hr, hs, -⟩
      rw [h1] at hr
      cases hr
      rw [h2] at hs
      cases hs
    | some k =>
      cases h3 : env.parseProblem cfg.problem cfg.artificalSleep cfg.links with
      | none =>
        refine Or.inr ⟨?_, Or.inr (Or.inr (Or.inl
          ⟨cfg, main_invalid_problem env progname opts cfg k h1 h2 h3⟩))⟩
        rintro ⟨cfg1, k1, pr, hr, -, hp, -⟩
        rw [h1] at hr
        cases hr
        rw [h3] at hp
        cases hp
      | some pr =>
        cases h4 : env.parsePlanner cfg.plannerName k pr.constraint (Double.fin 1) with
        | false =>
          refine Or.inr ⟨?_, Or.inr (Or.inr (Or.inr
            ⟨cfg, k, pr, main_invalid_planner env progname opts cfg k pr h1 h2 h3 h4⟩))⟩
          rintro ⟨cfg1, k1, pr1, hr, hs, hp, hq⟩
          rw [h1] at hr
          cases hr
          rw [h2] at hs
          cases hs
          rw [h3] at hp
          cases hp
          rw [h4] at hq
          cases hq
        | true => exact Or.inl ⟨cfg, k, pr, h1, h2, h3, h4⟩

/-! ## Reading the segments of a run -/

/-- The calls of `solve` of a concatenation. -/
theorem solveCalls_append (a b : List Event) :
    solveCalls (a ++ b) = solveCalls a ++ solveCalls b := by
  simp [solveCalls, List.filterMap_append]

/-- The state spaces constructed in a concatenation. -/
theorem constructedSpaces_append (a b : List Event) :
    constructedSpaces (a ++ b) = constructedSpaces a ++ constructedSpaces b := by
  simp [constructedSpaces, List.filterMap_append]

/-- The events of the try block, with the comparison chain read as membership in the
list of the seven planner names. -/
theorem tryProjection_eq (env : Env) (cfg : Config) :
    tryProjection env cfg =
      if cfg.plannerName ∈ projectionPlanners then
        Event.setProjectionEvaluator cfg.plannerName cfg.problem ::
          (if env.setProjectionEvaluatorThrows cfg.plannerName cfg.problem then
            [Event.caught] else [])
      else [] := by
  unfold tryProjection projectionPlanners strcmpEq
  simp only [decide_eq_true_eq, List.mem_cons, List.mem_singleton, List.not_mem_nil,
    or_false]
  split_ifs <;> simp_all

/-- The calls of `solve` in each segment of a run. -/
theorem solveCalls_segments (env : Env) (cfg : Config) (k : SPACE) (pr : Problem)
    (stat : PlannerStatus) (progname : String) :
    solveCalls (buildSpace env cfg pr k) = [] ∧
    solveCalls (tryProjection env cfg) = [] ∧
    solveCalls (solveEvents cfg) = [termination cfg] ∧
    solveCalls (reportEvents env cfg k pr stat) = [] ∧
    solveCalls (diagnosticEvents k) = [] ∧
    solveCalls (usage progname) = [] := by
  refine ⟨?_, ?_, ?_, ?_, ?_, rfl⟩
  · cases k <;> rfl
  · rw [tryProjection_eq]; split_ifs <;> rfl
  · unfold solveEvents termination; split_ifs <;> rfl
  · unfold reportEvents dumpEvents; split_ifs <;> rfl
  · unfold diagnosticEvents; split_ifs <;> rfl

/-- The state spaces constructed in each segment of a run. -/
theorem constructedSpaces_segments (env : Env) (cfg : Config) (k : SPACE) (pr : Problem)
    (stat : PlannerStatus) (progname : String) :
    constructedSpaces (buildSpace env cfg pr k) = [k] ∧
    constructedSpaces (tryProjection env cfg) = [] ∧
    constructedSpaces (solveEvents cfg) = [] ∧
    constructedSpaces (reportEvents env cfg k pr stat) = [] ∧
    constructedSpaces (diagnosticEvents k) = [] ∧
    constructedSpaces (usage progname) = [] := by
  refine ⟨?_, ?_, ?_, ?_, ?_, rfl⟩
  · cases k <;> rfl
  · rw [tryProjection_eq]; split_ifs <;> rfl
  · unfold solveEvents; split_ifs <;> rfl
  · unfold reportEvents dumpEvents; split_ifs <;> rfl
  · unfold diagnosticEvents; split_ifs <;> rfl

/-- The endpoint calls in the segments after the state space is built. -/
theorem endpoint_segments (env : Env) (cfg : Config) (k : SPACE) (pr : Problem)
    (stat : PlannerStatus) (progname : String) :
    (tryProjection env cfg).filter Event.isEndpointCall = [] ∧
    (solveEvents cfg).filter Event.isEndpointCall = [] ∧
    (reportEvents env cfg k pr stat).filter Event.isEndpointCall = [] ∧
    (diagnosticEvents k).filter Event.isEndpointCall = [] ∧
    (usage progname).filter Event.isEndpointCall = [] := by
  refine ⟨?_, ?_, ?_, ?_, rfl⟩
  · rw [tryProjection_eq]; split_ifs <;> rfl
  · unfold solveEvents; split_ifs <;> rfl
  · unfold reportEvents dumpEvents; split_ifs <;> rfl
  · unfold diagnosticEvents; split_ifs <;> rfl

/-- The calls of `solve` and of the diagnostics in each segment of a run. -/
theorem solveOrDiagnostic_segments (env : Env) (cfg : Config) (k : SPACE) (pr : Problem)
    (stat : PlannerStatus) (progname : String) :
    (buildSpace env cfg pr k).filter Event.isSolveOrDiagnostic = [] ∧
    (tryProjection env cfg).filter Event.isSolveOrDiagnostic = [] ∧
    (solveEvents cfg).filter Event.isSolveOrDiagnostic = [Event.solve (termination cfg)] ∧
    (reportEvents env cfg k pr stat).filter Event.isSolveOrDiagnostic = [] ∧
    (diagnosticEvents k).filter Event.isSolveOrDiagnostic = diagnosticEvents k ∧
    (usage progname).filter Event.isSolveOrDiagnostic = [] := by
  refine ⟨?_, ?_, ?_, ?_, ?_, rfl⟩
  · cases k <;> rfl
  · rw [tryProjection_eq]; split_ifs <;> rfl
  · unfold solveEvents termination; split_ifs <;> rfl
  · unfold reportEvents dumpEvents; split_ifs <;> rfl
  · unfold diagnosticEvents; split_ifs <;> rfl

/-- The projection and planning calls in each segment of a run. -/
theorem projectionOrPlanning_segments (env : Env) (cfg : Config) (k : SPACE)
    (pr : Problem) (stat : PlannerStatus) :
    (buildSpace env cfg pr k).filter Event.isProjectionOrPlanning = [] ∧
    (tryProjection env cfg).filter Event.isProjectionOrPlanning = tryProjection env cfg ∧
    (solveEvents cfg).filter Event.isProjectionOrPlanning =
      [Event.solve (termination cfg)] ∧
    (reportEvents env cfg k pr stat).filter Event.isProjectionOrPlanning = [] ∧
    (diagnosticEvents k).filter Event.isProjectionOrPlanning = [] := by
  refine ⟨?_, ?_, ?_, ?_, ?_⟩
  · cases k <;> rfl
  · rw [tryProjection_eq]; split_ifs <;> rfl
  · unfold solveEvents termination; split_ifs <;> rfl
  · unfold reportEvents dumpEvents; split_ifs <;> rfl
  · unfold diagnosticEvents; split_ifs <;> rfl

/-- No segment before planning calls `setup`, opens a file or prints the atlas. -/
theorem buildSpace_quiet (env : Env) (cfg : Config) (k : SPACE) (pr : Problem) :
    Event.setup ∉ buildSpace env cfg pr k ∧
    Event.atlasPrintPLY ∉ buildSpace env cfg pr k ∧
    ∀ f, Event.ofstream f ∉ buildSpace env cfg pr k := by
  cases k <;> simp [buildSpace]

/-- Where the report writes files. -/
theorem reportEvents_files (env : Env) (cfg : Config) (k : SPACE) (pr : Problem)
    (stat : PlannerStatus) :
    (Event.atlasPrintPLY ∈ reportEvents env cfg k pr stat ↔
      env.statusBool stat = true ∧ cfg.output = true ∧ pr.constraint.manifoldDimension = 2 ∧
        k = SPACE.ATLAS) ∧
    (Event.ofstream "atlas.ply" ∈ reportEvents env cfg k pr stat ↔
      Event.atlasPrintPLY ∈ reportEvents env cfg k pr stat) ∧
    (env.statusBool stat = false → ∀ f, Event.ofstream f ∉ reportEvents env cfg k pr stat) := by
  have d1 : ("anim.txt" : String) ≠ "atlas.ply" := by decide
  have d2 : ("path.ply" : String) ≠ "atlas.ply" := by decide
  have d3 : ("graph.ply" : String) ≠ "atlas.ply" := by decide
  unfold reportEvents dumpEvents
  refine ⟨?_, ?_, ?_⟩
  · split_ifs <;> simp_all
  · split_ifs <;> simp_all [Ne.symm d1, Ne.symm d2, Ne.symm d3]
  · intro hs f
    simp [hs]

/-! ## The claims -/

/-- C1, as amended. In every run whose options are all recognised, with `s` the
space name (the last `-s` argument, or "projected" when there is none): when
`parseProblem` returns a constraint, exactly one state space is constructed, the atlas
space for "atlas", the projected space for "projected", the nullspace space for
"null"; a space of one kind is constructed only for its own name; for every other
string, and when `parseProblem` returns no constraint, none is constructed. -/
theorem C1_space_selection (env : Env) (progname : String) (opts : List GetoptResult)
    (cfg : Config) (hopts : optionLoop env.libc Config.initial opts = some cfg) :
    cfg.space = (lastArg 's' opts).getD "projected" ∧
    (env.parseProblem cfg.problem cfg.artificalSleep cfg.links ≠ none →
      (cfg.space = "atlas" →
        constructedSpaces (main env progname opts) = [SPACE.ATLAS]) ∧
      (cfg.space = "projected" →
        constructedSpaces (main env progname opts) = [SPACE.PROJECTED]) ∧
      (cfg.space = "null" →
        constructedSpaces (main env progname opts) = [SPACE.NULLSPACE])) ∧
    (SPACE.ATLAS ∈ constructedSpaces (main env progname opts) → cfg.space = "atlas") ∧
    (SPACE.PROJECTED ∈ constructedSpaces (main env progname opts) →
      cfg.space = "projected") ∧
    (SPACE.NULLSPACE ∈ constructedSpaces (main env progname opts) → cfg.space = "null") ∧
    (cfg.space ≠ "atlas" → cfg.space ≠ "projected" → cfg.space ≠ "null" →
      constructedSpaces (main env progname opts) = []) ∧
    (env.parseProblem cfg.problem cfg.artificalSleep cfg.links = none →
      constructedSpaces (main env progname opts) = []) := by
  obtain ⟨sa, sp, sn, sx⟩ := selectSpace_spec cfg.space
  have key : constructedSpaces (main env progname opts) =
      match selectSpace cfg.space,
        env.parseProblem cfg.problem cfg.artificalSleep cfg.links with
      | some k, some _ => [k]
      | _, _ => [] := by
    cases h2 : selectSpace cfg.space with
    | none =>
      rw [main_invalid_space env progname opts cfg hopts h2]
      rfl
    | some k =>
      cases h3 : env.parseProblem cfg.problem cfg.artificalSleep cfg.links with
      | none =>
        rw [main_invalid_problem env progname opts cfg k hopts h2 h3]
        rfl
      | some pr =>
        cases h4 : env.parsePlanner cfg.plannerName k pr.constraint (Double.fin 1) with
        | false =>
          obtain ⟨c1, -, -, -, -, c6⟩ := constructedSpaces_segments env cfg k pr
            PlannerStatus.UNKNOWN progname
          rw [main_invalid_planner env progname opts cfg k pr hopts h2 h3 h4]
          simp only [constructedSpaces_append, c1, c6]
          simp [constructedSpaces]
        | true =>
          obtain ⟨c1, c2, c3, c4, c5, -⟩ := constructedSpaces_segments env cfg k pr
            (env.solve (termination cfg)) progname
          rw [main_reaches env progname opts cfg k pr ⟨hopts, h2, h3, h4⟩]
          simp only [planEvents, constructedSpaces_append, c1, c2, c3, c4, c5]
          simp [constructedSpaces]
  refine ⟨(optionLoop_initial env.libc opts cfg hopts).2.2.1, ?_, ?_, ?_, ?_, ?_, ?_⟩
  · intro hp
    cases h3 : env.parseProblem cfg.problem cfg.artificalSleep cfg.links with
    | none => exact absurd h3 hp
    | some pr =>
      refine ⟨fun h => ?_, fun h => ?_, fun h => ?_⟩
      · rw [key, sa.2 h, h3]
      · rw [key, sp.2 h, h3]
      · rw [key, sn.2 h, h3]
  · intro hm
    rw [key] at hm
    split at hm
    · next k _ hk _ =>
      simp only [List.mem_singleton] at hm
      subst hm
      exact sa.1 hk
    · simp at hm
  · intro hm
    rw [key] at hm
    split at hm
    · next k _ hk _ =>
      simp only [List.mem_singleton] at hm
      subst hm
      exact sp.1 hk
    · simp at hm
  · intro hm
    rw [key] at hm
    split at hm
    · next k _ hk _ =>
      simp only [List.mem_singleton] at hm
      subst hm
      exact sn.1 hk
    · simp at hm
  · intro h1 h2 h3
    rw [key, sx.2 ⟨h1, h2, h3⟩]
  · intro h3
    rw [key, h3]
    cases selectSpace cfg.space <;> rfl

/-- C1 at a sample run: the option `-s atlas` with a known problem constructs the
atlas space and nothing else. -/
theorem C1_space_selection_witness :
    optionLoop sampleEnv.libc Config.initial [⟨'s', "atlas"⟩] =
        some { Config.initial with space := "atlas" } ∧
      constructedSpaces (main sampleEnv "demo" [⟨'s', "atlas"⟩]) = [SPACE.ATLAS] :=
  ⟨by decide,
   ((C1_space_selection sampleEnv "demo" [⟨'s', "atlas"⟩]
      { Config.initial with space := "atlas" } (by decide)).2.1 (by decide)).1 (by decide)⟩

/-- C1 as stated fails: in the run `-s atlas -c torus9` the space name is "atlas",
`parseProblem` returns no constraint, and no state space is constructed, so it is not
the case that exactly one is constructed in every run. -/
theorem C1_counterexample :
    (optionLoop sampleEnv.libc Config.initial unknownProblemOpts).map Config.space =
        some "atlas" ∧
      constructedSpaces (main sampleEnv "demo" unknownProblemOpts) = [] ∧
      ¬ (constructedSpaces (main sampleEnv "demo" unknownProblemOpts)).length = 1 := by
  decide

/-- What every run that ends in `usage` has in common. -/
theorem aborted_run (progname : String) (pre : List Event) (h1 : Event.setup ∉ pre)
    (h2 : solveCalls pre = []) :
    usage progname <:+ pre ++ usage progname ∧
    (pre ++ usage progname).getLast? = some (Event.exit 0) ∧
    Event.setup ∉ pre ++ usage progname ∧
    solveCalls (pre ++ usage progname) = [] := by
  refine ⟨List.suffix_append pre (usage progname), ?_, ?_, ?_⟩
  · simp [usage]
  · simp [usage, h1]
  · rw [solveCalls_append, h2]
    rfl

/-- C2, as amended. For every command line: if an option is not recognised, or the
space name is none of "atlas", "projected", "null", or `parseProblem` returns no
constraint, or `parsePlanner` returns no planner, then the run ends with the calls of
`usage` (whose last call is `exit(0)`, so it does not return), and neither `setup`
nor `solve` is ever called. When every option is recognised and the space name is
invalid, the run is the message "Invalid constrained state space." followed by
`usage`; when every option is recognised, the space name is valid and `parseProblem`
returns no constraint, it is the call of `parseProblem`, the message "Invalid
problem." and `usage`; in both no state space is constructed. -/
theorem C2_configuration_errors (env : Env) (progname : String)
    (opts : List GetoptResult)
    (h : (∃ r ∈ opts, r.c ∉ caseLabels) ∨
      ∃ cfg, optionLoop env.libc Config.initial opts = some cfg ∧
        ((cfg.space ≠ "atlas" ∧ cfg.space ≠ "projected" ∧ cfg.space ≠ "null") ∨
         env.parseProblem cfg.problem cfg.artificalSleep cfg.links = none ∨
         ∀ k pr, selectSpace cfg.space = some k →
           env.parseProblem cfg.problem cfg.artificalSleep cfg.links = some pr →
           env.parsePlanner cfg.plannerName k pr.constraint (Double.fin 1) = false)) :
    (usage progname <:+ main env progname opts ∧
      (usage progname).getLast? = some (Event.exit 0) ∧
      (main env progname opts).getLast? = some (Event.exit 0) ∧
      Event.setup ∉ main env progname opts ∧
      solveCalls (main env progname opts) = []) ∧
    (∀ cfg, optionLoop env.libc Config.initial opts = some cfg →
      cfg.space ≠ "atlas" ∧ cfg.space ≠ "projected" ∧ cfg.space ≠ "null" →
      main env progname opts =
        Event.cout "Invalid constrained state space." :: usage progname ∧
      constructedSpaces (main env progname opts) = []) ∧
    (∀ cfg, optionLoop env.libc Config.initial opts = some cfg →
      cfg.space = "atlas" ∨ cfg.space = "projected" ∨ cfg.space = "null" →
      env.parseProblem cfg.problem cfg.artificalSleep cfg.links = none →
      main env progname opts =
        [Event.parseProblem cfg.problem cfg.artificalSleep cfg.links,
         Event.cout "Invalid problem."] ++ usage progname ∧
      constructedSpaces (main env progname opts) = []) := by
  refine ⟨?_, ?_, ?_⟩
  · have hlast : (usage progname).getLast? = some (Event.exit 0) := by simp [usage]
    have notReach : ¬ ∃ cfg k pr, ReachesPlanning env opts cfg k pr := by
      rintro ⟨cfg, k, pr, r1, r2, r3, r4⟩
      rcases h with hbad | ⟨cfg1, c1, hcase⟩
      · rw [(optionLoop_eq_none_iff env.libc opts Config.initial).2 hbad] at r1
        cases r1
      · rw [r1] at c1
        cases c1
        rcases hcase with hs | hp | hq
        · rw [((selectSpace_spec cfg.space).2.2.2).2 hs] at r2
          cases r2
        · rw [hp] at r3
          cases r3
        · rw [hq k pr r2 r3] at r4
          cases r4
    rcases main_cases env progname opts with hr | ⟨-, m | m | ⟨cfg, m⟩ | ⟨cfg, k, pr, m⟩⟩
    · exact absurd hr notReach
    · obtain ⟨a1, a2, a3, a4⟩ := aborted_run progname [] (by simp) rfl
      rw [m]
      exact ⟨a1, hlast, a2, a3, a4⟩
    · obtain ⟨a1, a2, a3, a4⟩ := aborted_run progname
        [Event.cout "Invalid constrained state space."] (by simp) rfl
      rw [m]
      exact ⟨a1, hlast, a2, a3, a4⟩
    · obtain ⟨a1, a2, a3, a4⟩ := aborted_run progname
        [Event.parseProblem cfg.problem cfg.artificalSleep cfg.links,
         Event.cout "Invalid problem."] (by simp) rfl
      rw [m]
      exact ⟨a1, hlast, a2, a3, a4⟩
    · obtain ⟨s1, -, -, -, -, -⟩ := solveCalls_segments env cfg k pr
        PlannerStatus.UNKNOWN progname
      obtain ⟨a1, a2, a3, a4⟩ := aborted_run progname
        ([Event.parseProblem cfg.problem cfg.artificalSleep cfg.links,
          Event.printfBanner cfg.space cfg.plannerName cfg.problem
            pr.constraint.ambientDimension pr.constraint.coDimension cfg.planningTime
            cfg.artificalSleep] ++
         buildSpace env cfg pr k ++
         [Event.setStateValidityChecker, Event.parsePlanner cfg.plannerName (Double.fin 1),
          Event.cout "Invalid planner."])
        (by simp [(buildSpace_quiet env cfg k pr).1])
        (by simp only [solveCalls_append, s1]; rfl)
      rw [m]
      exact ⟨a1, hlast, a2, a3, a4⟩
  · intro cfg h1 hs
    have h2 := ((selectSpace_spec cfg.space).2.2.2).2 hs
    rw [main_invalid_space env progname opts cfg h1 h2]
    exact ⟨rfl, rfl⟩
  · intro cfg h1 hs h3
    obtain ⟨sa, sp, sn, -⟩ := selectSpace_spec cfg.space
    have h2 : ∃ k, selectSpace cfg.space = some k := by
      rcases hs with e | e | e
      · exact ⟨_, sa.2 e⟩
      · exact ⟨_, sp.2 e⟩
      · exact ⟨_, sn.2 e⟩
    obtain ⟨k, h2⟩ := h2
    rw [main_invalid_problem env progname opts cfg k h1 h2 h3]
    exact ⟨rfl, rfl⟩

/-- C2 at a sample run: `-s atlas -c torus9` names a problem the library does not
know; the run is the call of `parseProblem`, the message and `usage`. -/
theorem C2_configuration_errors_witness :
    main sampleEnv "demo" unknownProblemOpts =
        [Event.parseProblem "torus9" (Double.fin 0) 5, Event.cout "Invalid problem."] ++
          usage "demo" ∧
      constructedSpaces (main sampleEnv "demo" unknownProblemOpts) = [] :=
  (C2_configuration_errors sampleEnv "demo" unknownProblemOpts
    (Or.inr ⟨{ Config.initial with space := "atlas", problem := "torus9" }, by decide,
      Or.inr (Or.inl (by decide))⟩)).2.2
    { Config.initial with space := "atlas", problem := "torus9" } (by decide)
    (Or.inl (by decide)) (by decide)

/-- C2 as stated fails: on the command line `-s bogus -x` the space name "bogus" is
none of the three, `getopt` answers `?` for the unknown option `-x`, the option loop
calls `usage` at once, and the message "Invalid constrained state space." is never
printed. -/
theorem C2_counterexample :
    lastArg 's' [⟨'s', "bogus"⟩, ⟨'?', ""⟩] = some "bogus" ∧
      selectSpace "bogus" = none ∧
      main sampleEnv "demo" [⟨'s', "bogus"⟩, ⟨'?', ""⟩] = usage "demo" ∧
      Event.cout "Invalid constrained state space." ∉
        main sampleEnv "demo" [⟨'s', "bogus"⟩, ⟨'?', ""⟩] := by
  decide

/-- C3. In every run that reaches planning, `solve` is called exactly once: with an
iteration-count termination condition built from `iter` when `iter` is non-zero, and
with the time limit `planningTime` when `iter` is zero; `iter` is `atoi` of the last
`-i` argument, or 0 when there is none, and `planningTime` is `atof` of the last `-t`
argument, or 5.0 when there is none. -/
theorem C3_solve_once (env : Env) (progname : String) (opts : List GetoptResult)
    (cfg : Config) (k : SPACE) (pr : Problem) (h : ReachesPlanning env opts cfg k pr) :
    cfg.iter = ((lastArg 'i' opts).map env.libc.atoi).getD 0 ∧
    cfg.planningTime = ((lastArg 't' opts).map env.libc.atof).getD (Double.fin 5) ∧
    (cfg.iter ≠ 0 →
      solveCalls (main env progname opts) = [Termination.iterations cfg.iter]) ∧
    (cfg.iter = 0 →
      solveCalls (main env progname opts) = [Termination.seconds cfg.planningTime]) := by
  obtain ⟨s1, s2, s3, s4, s5, -⟩ :=
    solveCalls_segments env cfg k pr (env.solve (termination cfg)) progname
  have key : solveCalls (main env progname opts) = [termination cfg] := by
    rw [main_reaches env progname opts cfg k pr h]
    simp only [planEvents, solveCalls_append, s1, s2, s3, s4, s5]
    simp [solveCalls]
  obtain ⟨-, -, -, f4, -, f6, -, -, -⟩ := optionLoop_initial env.libc opts cfg h.1
  refine ⟨f6, f4, fun hi => ?_, fun hi => ?_⟩
  · rw [key]
    simp [termination, hi]
  · rw [key]
    simp [termination, hi]

/-- C3 at a sample run: with `-i 7` the one call of `solve` carries the iteration
count 7. -/
theorem C3_solve_once_witness :
    ReachesPlanning sampleEnv atlasOpts atlasCfg SPACE.ATLAS sphereProblem ∧
      solveCalls (main sampleEnv "demo" atlasOpts) = [Termination.iterations 7] :=
  ⟨by decide,
   (C3_solve_once sampleEnv "demo" atlasOpts atlasCfg SPACE.ATLAS sphereProblem
      (by decide)).2.2.1 (by decide)⟩

/-- C4. In every run whose options are all recognised and in which `parseProblem`
returns the start point `x` and the goal point `y`: when the space name is "atlas",
the calls that seed the atlas or fix the endpoints are, in this order, `anchorChart`
on `x`, `anchorChart` on `y`, the start state set to `x` with the chart returned for
`x`, the goal state set to `y` with the chart returned for `y`, and then the hand-over
of both states; when the space name is "projected" or "null" there is no call of
`anchorChart` and the states are set to `x` and `y` alone. -/
theorem C4_atlas_seeding (env : Env) (progname : String) (opts : List GetoptResult)
    (cfg : Config) (pr : Problem)
    (hopts : optionLoop env.libc Config.initial opts = some cfg)
    (hpr : env.parseProblem cfg.problem cfg.artificalSleep cfg.links = some pr) :
    (cfg.space = "atlas" →
      (main env progname opts).filter Event.isEndpointCall =
        [Event.anchorChart pr.x, Event.anchorChart pr.y,
         Event.setRealState Endpoint.start ⟨pr.x, some (env.anchorChart [] pr.x)⟩,
         Event.setRealState Endpoint.goal ⟨pr.y, some (env.anchorChart [pr.x] pr.y)⟩,
         Event.setStartAndGoalStates ⟨pr.x, some (env.anchorChart [] pr.x)⟩
           ⟨pr.y, some (env.anchorChart [pr.x] pr.y)⟩]) ∧
    (cfg.space = "projected" ∨ cfg.space = "null" →
      (main env progname opts).filter Event.isEndpointCall =
        [Event.setRealState Endpoint.start ⟨pr.x, none⟩,
         Event.setRealState Endpoint.goal ⟨pr.y, none⟩,
         Event.setStartAndGoalStates ⟨pr.x, none⟩ ⟨pr.y, none⟩]) := by
  obtain ⟨sa, sp, sn, -⟩ := selectSpace_spec cfg.space
  have key : ∀ k, selectSpace cfg.space = some k →
      (main env progname opts).filter Event.isEndpointCall =
        (buildSpace env cfg pr k).filter Event.isEndpointCall := by
    intro k h2
    obtain ⟨e1, e2, e3, e4, e5⟩ :=
      endpoint_segments env cfg k pr (env.solve (termination cfg)) progname
    cases h4 : env.parsePlanner cfg.plannerName k pr.constraint (Double.fin 1) with
    | false =>
      rw [main_invalid_planner env progname opts cfg k pr hopts h2 hpr h4]
      simp only [List.filter_append, e5]
      simp [List.filter, Event.isEndpointCall]
    | true =>
      rw [main_reaches env progname opts cfg k pr ⟨hopts, h2, hpr, h4⟩]
      simp only [planEvents, List.filter_append, e1, e2, e3, e4]
      simp [List.filter, Event.isEndpointCall]
  refine ⟨fun h => ?_, fun h => ?_⟩
  · rw [key SPACE.ATLAS (sa.2 h)]
    rfl
  · rcases h with h | h
    · rw [key SPACE.PROJECTED (sp.2 h)]
      rfl
    · rw [key SPACE.NULLSPACE (sn.2 h)]
      rfl

/-- C4 at a sample run on the atlas space: the two anchor calls, then the two states
with their charts, then the hand-over. -/
theorem C4_atlas_seeding_witness :
    (main sampleEnv "demo" atlasOpts).filter Event.isEndpointCall =
      [Event.anchorChart sphereProblem.x, Event.anchorChart sphereProblem.y,
       Event.setRealState Endpoint.start ⟨sphereProblem.x, some 0⟩,
       Event.setRealState Endpoint.goal ⟨sphereProblem.y, some 1⟩,
       Event.setStartAndGoalStates ⟨sphereProblem.x, some 0⟩ ⟨sphereProblem.y, some 1⟩] :=
  (C4_atlas_seeding sampleEnv "demo" atlasOpts atlasCfg sphereProblem (by decide)
    (by decide)).1 (by decide)

/-- C5. Let the conversion of a status to `bool` be true exactly for the exact and
the approximate solution status, as the library defines it. The atlas mesh is written (`printPLY` on the atlas space, into the file
"atlas.ply") if and only if the run reaches planning and all four hold: the status
returned by `solve` is the exact or the approximate solution status, the option `-o`
was given, the manifold dimension of the constraint is 2, and the space name is
"atlas". The file "atlas.ply" is opened exactly in the runs that print the atlas, and
a run whose planner returns no solution status opens no file at all. -/
theorem C5_atlas_mesh (env : Env) (progname : String) (opts : List GetoptResult)
    (hbool : ∀ s, env.statusBool s = true ↔
      s = PlannerStatus.EXACT_SOLUTION ∨ s = PlannerStatus.APPROXIMATE_SOLUTION) :
    (Event.atlasPrintPLY ∈ main env progname opts ↔
      ∃ cfg k pr, ReachesPlanning env opts cfg k pr ∧
        (env.solve (termination cfg) = PlannerStatus.EXACT_SOLUTION ∨
          env.solve (termination cfg) = PlannerStatus.APPROXIMATE_SOLUTION) ∧
        given 'o' opts = true ∧ pr.constraint.manifoldDimension = 2 ∧
        cfg.space = "atlas") ∧
    (Event.ofstream "atlas.ply" ∈ main env progname opts ↔
      Event.atlasPrintPLY ∈ main env progname opts) ∧
    (∀ cfg k pr, ReachesPlanning env opts cfg k pr →
      env.solve (termination cfg) ≠ PlannerStatus.EXACT_SOLUTION →
      env.solve (termination cfg) ≠ PlannerStatus.APPROXIMATE_SOLUTION →
      ∀ f, Event.ofstream f ∉ main env progname opts) := by
  have reach : ∀ cfg k pr, ReachesPlanning env opts cfg k pr →
      (Event.atlasPrintPLY ∈ main env progname opts ↔
        Event.atlasPrintPLY ∈ reportEvents env cfg k pr (env.solve (termination cfg))) ∧
      (∀ f, Event.ofstream f ∈ main env progname opts ↔
        Event.ofstream f ∈ reportEvents env cfg k pr (env.solve (termination cfg))) := by
    intro cfg k pr hr
    obtain ⟨-, q2, q3⟩ := buildSpace_quiet env cfg k pr
    have t1 : Event.atlasPrintPLY ∉ tryProjection env cfg := by
      rw [tryProjection_eq]; split_ifs <;> simp
    have t2 : ∀ f, Event.ofstream f ∉ tryProjection env cfg := by
      intro f; rw [tryProjection_eq]; split_ifs <;> simp
    have t3 : Event.atlasPrintPLY ∉ solveEvents cfg := by
      unfold solveEvents; split_ifs <;> simp
    have t4 : ∀ f, Event.ofstream f ∉ solveEvents cfg := by
      intro f; unfold solveEvents; split_ifs <;> simp
    have t5 : Event.atlasPrintPLY ∉ diagnosticEvents k := by
      unfold diagnosticEvents; split_ifs <;> simp
    have t6 : ∀ f, Event.ofstream f ∉ diagnosticEvents k := by
      intro f; unfold diagnosticEvents; split_ifs <;> simp
    rw [main_reaches env progname opts cfg k pr hr]
    refine ⟨?_, fun f => ?_⟩
    · simp [planEvents, q2, t1, t3, t5]
    · simp [planEvents, q3 f, t2 f, t4 f, t6 f]
  have aborted : (¬ ∃ cfg k pr, ReachesPlanning env opts cfg k pr) →
      Event.atlasPrintPLY ∉ main env progname opts ∧
      ∀ f, Event.ofstream f ∉ main env progname opts := by
    intro hn
    rcases main_cases env progname opts with hr | ⟨-, m | m | ⟨cfg, m⟩ | ⟨cfg, k, pr, m⟩⟩
    · exact absurd hr hn
    · rw [m]; simp [usage]
    · rw [m]; simp [usage]
    · rw [m]; simp [usage]
    · obtain ⟨-, q2, q3⟩ := buildSpace_quiet env cfg k pr
      rw [m]
      refine ⟨?_, fun f => ?_⟩
      · simp [usage, q2]
      · simp [usage, q3 f]
  refine ⟨?_, ?_, ?_⟩
  · constructor
    · intro hm
      by_cases hr : ∃ cfg k pr, ReachesPlanning env opts cfg k pr
      · obtain ⟨cfg, k, pr, hr⟩ := hr
        have hm1 := ((reach cfg k pr hr).1).1 hm
        obtain ⟨g1, g2, g3, g4⟩ :=
          ((reportEvents_files env cfg k pr (env.solve (termination cfg))).1).1 hm1
        have ho := (optionLoop_initial env.libc opts cfg hr.1).2.2.2.2.2.2.2.1
        refine ⟨cfg, k, pr, hr, (hbool _).1 g1, ?_, g3, ?_⟩
        · rw [← ho]; exact g2
        · have hk := hr.2.1
          rw [g4] at hk
          exact ((selectSpace_spec cfg.space).1).1 hk
      · exact absurd hm (aborted hr).1
    · rintro ⟨cfg, k, pr, hr, hs, ho, hd, ha⟩
      have hk : k = SPACE.ATLAS := by
        have h2 := hr.2.1
        rw [((selectSpace_spec cfg.space).1).2 ha] at h2
        cases h2
        rfl
      have hout := (optionLoop_initial env.libc opts cfg hr.1).2.2.2.2.2.2.2.1
      exact ((reach cfg k pr hr).1).2
        (((reportEvents_files env cfg k pr (env.solve (termination cfg))).1).2
          ⟨(hbool _).2 hs, by rw [hout]; exact ho, hd, hk⟩)
  · by_cases hr : ∃ cfg k pr, ReachesPlanning env opts cfg k pr
    · obtain ⟨cfg, k, pr, hr⟩ := hr
      rw [(reach cfg k pr hr).1, (reach cfg k pr hr).2 "atlas.ply"]
      exact (reportEvents_files env cfg k pr (env.solve (termination cfg))).2.1
    · exact ⟨fun hm => absurd hm ((aborted hr).2 _), fun hm => absurd hm (aborted hr).1⟩
  · intro cfg k pr hr n1 n2 f hm
    have hb : env.statusBool (env.solve (termination cfg)) = false := by
      cases hb : env.statusBool (env.solve (termination cfg)) with
      | false => rfl
      | true =>
        rcases (hbool _).1 hb with e | e
        · exact absurd e n1
        · exact absurd e n2
    exact (reportEvents_files env cfg k pr (env.solve (termination cfg))).2.2 hb f
      (((reach cfg k pr hr).2 f).1 hm)

/-- C5 at a sample run: `-s atlas -i 7 -o` on the sphere (manifold dimension 2) with
a planner that finds a solution prints the atlas. -/
theorem C5_atlas_mesh_witness :
    Event.atlasPrintPLY ∈ main sampleEnv "demo" atlasOpts :=
  (C5_atlas_mesh sampleEnv "demo" atlasOpts (fun s => by cases s <;> decide)).1.2
    ⟨atlasCfg, SPACE.ATLAS, sphereProblem, by decide, Or.inl (by decide), by decide,
      by decide, by decide⟩

/-- C6. The usage line lists the options `usageFlags`; each of them is declared in the
option string with the arity shown and is handled by the switch without `usage`. One
pass of the switch changes a field only on that field's own option: `-c` problem, `-p`
plannerName, `-s` space, `-t` planningTime, `-w` artificalSleep, `-i` iter, `-n`
links, `-o` output, `-a` tb. After the loop each field holds the value of the last
occurrence of its option, and its initial value (sphere, RRTConnect, projected, 5.0,
0.0, 0, 5, output off, tb true) when the option never occurs. The loop completes
exactly when every result of `getopt` is a label of the switch, and those labels are
the characters the option string declares. -/
theorem C6_option_parsing (libc : Libc) (progname : String) :
    usage progname =
      [Event.cout ("Usage: " ++ progname ++
          (String.join (usageFlags.map renderFlag) ++ "\n")),
        Event.printProblems, Event.printPlanners, Event.exit 0] ∧
    (∀ f ∈ usageFlags, declaredIn optstring.toList f.1 = some f.2.isSome ∧
      ∀ cfg a, optionCase libc cfg ⟨f.1, a⟩ ≠ none) ∧
    (∀ cfg cfg1 r, optionCase libc cfg r = some cfg1 →
      cfg1.problem = (if r.c = 'c' then r.optarg else cfg.problem) ∧
      cfg1.plannerName = (if r.c = 'p' then r.optarg else cfg.plannerName) ∧
      cfg1.space = (if r.c = 's' then r.optarg else cfg.space) ∧
      cfg1.planningTime = (if r.c = 't' then libc.atof r.optarg else cfg.planningTime) ∧
      cfg1.artificalSleep =
        (if r.c = 'w' then libc.atof r.optarg else cfg.artificalSleep) ∧
      cfg1.iter = (if r.c = 'i' then libc.atoi r.optarg else cfg.iter) ∧
      cfg1.links = (if r.c = 'n' then toUnsigned (libc.atoi r.optarg) else cfg.links) ∧
      cfg1.output = (cfg.output || decide (r.c = 'o')) ∧
      cfg1.tb = (cfg.tb && !decide (r.c = 'a'))) ∧
    (∀ opts cfg, optionLoop libc Config.initial opts = some cfg →
      cfg.problem = (lastArg 'c' opts).getD "sphere" ∧
      cfg.plannerName = (lastArg 'p' opts).getD "RRTConnect" ∧
      cfg.space = (lastArg 's' opts).getD "projected" ∧
      cfg.planningTime = ((lastArg 't' opts).map libc.atof).getD (Double.fin 5) ∧
      cfg.artificalSleep = ((lastArg 'w' opts).map libc.atof).getD (Double.fin 0) ∧
      cfg.iter = ((lastArg 'i' opts).map libc.atoi).getD 0 ∧
      cfg.links = ((lastArg 'n' opts).map (fun a => toUnsigned (libc.atoi a))).getD 5 ∧
      cfg.output = given 'o' opts ∧
      cfg.tb = !given 'a' opts) ∧
    (∀ opts, optionLoop libc Config.initial opts ≠ none ↔ ∀ r ∈ opts, r.c ∈ caseLabels) ∧
    (∀ c, c ∈ caseLabels ↔ (declaredIn optstring.toList c).isSome = true) := by
  refine ⟨?_, ?_, optionCase_fields libc, optionLoop_initial libc, ?_, ?_⟩
  · have hline : String.join (usageFlags.map renderFlag) ++ "\n" =
        " -c <problem> -p <planner> -s <space> -t <timelimit> -w <sleep> -o\n" := by
      decide
    rw [hline]
    rfl
  · intro f hf
    have hlabel : f.1 ∈ caseLabels ∧ declaredIn optstring.toList f.1 = some f.2.isSome := by
      simp only [usageFlags, List.mem_cons, List.mem_singleton, List.not_mem_nil,
        or_false] at hf
      rcases hf with rfl | rfl | rfl | rfl | rfl | rfl <;> decide
    refine ⟨hlabel.2, fun cfg a hnone => ?_⟩
    exact (optionCase_eq_none_iff libc cfg ⟨f.1, a⟩).1 hnone hlabel.1
  · intro opts
    rw [Ne, optionLoop_eq_none_iff libc opts Config.initial]
    simp
  · intro c
    exact (declaredIn_optstring c).symm

/-- C6 at a sample run: of two `-c` options the last one sets the problem, and the
fields of the options not given keep their initial values. -/
theorem C6_option_parsing_witness :
    optionLoop sampleLibc Config.initial [⟨'c', "chain"⟩, ⟨'c', "torus"⟩] =
        some { Config.initial with problem := "torus" } ∧
      (lastArg 'c' [⟨'c', "chain"⟩, ⟨'c', "torus"⟩]).getD "sphere" = "torus" ∧
      (lastArg 's' [⟨'c', "chain"⟩, ⟨'c', "torus"⟩]).getD "projected" = "projected" :=
  ⟨by decide,
   ((C6_option_parsing sampleLibc "demo").2.2.2.1 [⟨'c', "chain"⟩, ⟨'c', "torus"⟩]
      { Config.initial with problem := "torus" } (by decide)).1.symm,
   ((C6_option_parsing sampleLibc "demo").2.2.2.1 [⟨'c', "chain"⟩, ⟨'c', "torus"⟩]
      { Config.initial with problem := "torus" } (by decide)).2.2.1.symm⟩

/-- C9, as amended. In every run that reaches planning, the calls of `solve`,
`getChartCount` and `estimateFrontierPercent` are, in this order, the one call of
`solve` and then, when the space name is "atlas", `getChartCount` and
`estimateFrontierPercent`, whatever the status returned by `solve` and whether or not
`-o` was given; when the space name is not "atlas" the call of `solve` is the only
one. In a run that does not reach planning none of the three is called. -/
theorem C9_atlas_diagnostics (env : Env) (progname : String)
    (opts : List GetoptResult) :
    (∀ cfg k pr, ReachesPlanning env opts cfg k pr →
      (cfg.space = "atlas" →
        (main env progname opts).filter Event.isSolveOrDiagnostic =
          [Event.solve (termination cfg), Event.getChartCount,
            Event.estimateFrontierPercent]) ∧
      (cfg.space ≠ "atlas" →
        (main env progname opts).filter Event.isSolveOrDiagnostic =
          [Event.solve (termination cfg)])) ∧
    ((¬ ∃ cfg k pr, ReachesPlanning env opts cfg k pr) →
      (main env progname opts).filter Event.isSolveOrDiagnostic = []) := by
  refine ⟨?_, ?_⟩
  · intro cfg k pr hr
    obtain ⟨d1, d2, d3, d4, d5, -⟩ :=
      solveOrDiagnostic_segments env cfg k pr (env.solve (termination cfg)) progname
    have key : (main env progname opts).filter Event.isSolveOrDiagnostic =
        Event.solve (termination cfg) :: diagnosticEvents k := by
      rw [main_reaches env progname opts cfg k pr hr]
      simp only [planEvents, List.filter_append, d1, d2, d3, d4, d5]
      simp [List.filter, Event.isSolveOrDiagnostic]
    have hk : k = SPACE.ATLAS ↔ cfg.space = "atlas" := by
      rw [← (selectSpace_spec cfg.space).1, hr.2.1]
      simp
    refine ⟨fun ha => ?_, fun hna => ?_⟩
    · rw [key, diagnosticEvents, if_pos (hk.2 ha)]
    · rw [key, diagnosticEvents, if_neg (fun e => hna (hk.1 e))]
  · intro hn
    rcases main_cases env progname opts with hr | ⟨-, m | m | ⟨cfg, m⟩ | ⟨cfg, k, pr, m⟩⟩
    · exact absurd hr hn
    · rw [m]; rfl
    · rw [m]; rfl
    · rw [m]; rfl
    · obtain ⟨d1, -, -, -, -, d6⟩ :=
        solveOrDiagnostic_segments env cfg k pr PlannerStatus.UNKNOWN progname
      rw [m]
      simp only [List.filter_append, d1, d6]
      simp [List.filter, Event.isSolveOrDiagnostic]

/-- C9 at a sample run on the atlas space whose planner times out: the diagnostics
follow the call of `solve`. -/
theorem C9_atlas_diagnostics_witness :
    (main timeoutEnv "demo" atlasOpts).filter Event.isSolveOrDiagnostic =
      [Event.solve (Termination.iterations 7), Event.getChartCount,
        Event.estimateFrontierPercent] :=
  ((C9_atlas_diagnostics timeoutEnv "demo" atlasOpts).1 atlasCfg SPACE.ATLAS sphereProblem
    (by decide)).1 (by decide)

/-- C9 as stated fails: in the run `-s atlas -p Dijkstra` the selected space is the
atlas, `parsePlanner` returns no planner, and neither `getChartCount` nor
`estimateFrontierPercent` is called. -/
theorem C9_counterexample :
    (optionLoop sampleEnv.libc Config.initial unknownPlannerOpts).map
        (fun cfg => selectSpace cfg.space) = some (some SPACE.ATLAS) ∧
      constructedSpaces (main sampleEnv "demo" unknownPlannerOpts) = [SPACE.ATLAS] ∧
      Event.getChartCount ∉ main sampleEnv "demo" unknownPlannerOpts ∧
      Event.estimateFrontierPercent ∉ main sampleEnv "demo" unknownPlannerOpts := by
  decide

/-- C10. In every run that reaches planning, the calls that register or select a
projection, set the bounds, set up and solve are, in this order: the registration of
"sphere", the registration of "chain", then, exactly when the planner name is one of
"KPIECE1", "BKPIECE1", "LBKPIECE1", "ProjEST", "PDST", "SBL", "STRIDE", one call of
`setProjectionEvaluator` on the planner of that name with the problem name as its
argument (followed by the empty handler when the call raises), then `setBounds`,
`setup` and `solve`, whether or not the call raised. -/
theorem C10_projection_evaluator (env : Env) (progname : String)
    (opts : List GetoptResult) (cfg : Config) (k : SPACE) (pr : Problem)
    (h : ReachesPlanning env opts cfg k pr) :
    (main env progname opts).filter Event.isProjectionOrPlanning =
      [Event.registerProjection "sphere", Event.registerProjection "chain"] ++
      (if cfg.plannerName = "KPIECE1" ∨ cfg.plannerName = "BKPIECE1" ∨
          cfg.plannerName = "LBKPIECE1" ∨ cfg.plannerName = "ProjEST" ∨
          cfg.plannerName = "PDST" ∨ cfg.plannerName = "SBL" ∨
          cfg.plannerName = "STRIDE" then
        Event.setProjectionEvaluator cfg.plannerName cfg.problem ::
          (if env.setProjectionEvaluatorThrows cfg.plannerName cfg.problem then
            [Event.caught] else [])
       else []) ++
      [Event.setBounds (boundsOf cfg pr), Event.setup, Event.solve (termination cfg)] := by
  obtain ⟨p1, p2, p3, p4, p5⟩ :=
    projectionOrPlanning_segments env cfg k pr (env.solve (termination cfg))
  rw [main_reaches env progname opts cfg k pr h]
  simp only [planEvents, List.filter_append, p1, p2, p3, p4, p5]
  rw [tryProjection_eq]
  simp [List.filter, Event.isProjectionOrPlanning, projectionPlanners]

/-- C10 at a sample run with the planner KPIECE1 and a `setProjectionEvaluator` that
raises: the call carries the problem name "sphere", the handler is entered, and the
bounds, `setup` and `solve` follow. -/
theorem C10_projection_evaluator_witness :
    (main throwingEnv "demo" kpieceOpts).filter Event.isProjectionOrPlanning =
      [Event.registerProjection "sphere", Event.registerProjection "chain",
       Event.setProjectionEvaluator "KPIECE1" "sphere", Event.caught,
       Event.setBounds (boundsOf kpieceCfg sphereProblem), Event.setup,
       Event.solve (Termination.seconds (Double.fin 5))] :=
  C10_projection_evaluator throwingEnv "demo" kpieceOpts kpieceCfg SPACE.PROJECTED
    sphereProblem (by decide)

end ConstrainedPlanning
